import Mathlib

/-!
Shallow embedding of `worker_daily_brief.py` (FinanceFlow daily briefing worker).

The worker is a single linear orchestration: module-level startup reads two
environment variables and initializes the document store; `main` computes a
date id, checks whether a briefing already exists, queries recent analyzed
news, extracts non-empty English summaries, asks the Groq LLM for a JSON
briefing, validates it, annotates it and writes it back.

External collaborators (Firestore, the Groq completion API, `json.loads` on
untrusted text) are modelled as oracle values supplied in an environment
record: each oracle is the outcome the external call would have produced
(`Except Unit _`, where `.error` stands for a raised exception). Python
dicts are modelled as insertion-ordered association lists over a small JSON
value type; dict assignment `d[k] = v` is `setKey` (replace in place if the
key exists, append otherwise). Effects (calls made, documents written, log
lines, exit codes) are recorded in explicit trace structures.
-/

namespace DailyBrief

/-- JSON-like values stored in briefing documents. `timestamp` stands for the
Firestore `SERVER_TIMESTAMP` sentinel assigned by the server at write time. -/
inductive Val where
  | str : String → Val
  | nat : Nat → Val
  | strList : List String → Val
  | timestamp : Val
deriving DecidableEq, Repr

/-- A Python dict with string keys, as an insertion-ordered association list. -/
abbrev Doc := List (String × Val)

/-- Key membership test, modelling Python `k in d`. -/
def hasKey (d : Doc) (k : String) : Bool :=
  d.any (fun p => p.1 == k)

/-- Dict assignment `d[k] = v`: replaces the value in place when the key is
already present, otherwise appends the new binding (Python insertion order). -/
def setKey (d : Doc) (k : String) (v : Val) : Doc :=
  if hasKey d k then d.map (fun p => if p.1 == k then (k, v) else p)
  else d ++ [(k, v)]

/-- Dict lookup `d.get(k)`. -/
def getKey (d : Doc) (k : String) : Option Val :=
  (d.find? (fun p => p.1 == k)).map (·.2)

/-- The nested `analysis` map of an analyzed-news record; only `summary_en`
is consumed by this worker. -/
structure NewsAnalysis where
  summary_en : Option String
deriving DecidableEq, Repr

/-- An analyzed-news record as returned by `doc.to_dict()`: the `analysis`
field may be absent altogether. -/
structure NewsRecord where
  analysis : Option NewsAnalysis
deriving DecidableEq, Repr

/-- The chained best-effort lookup `doc.to_dict().get('analysis', \x7b\x7d).get('summary_en')`:
`none` when the `analysis` field or the `summary_en` field is missing. -/
def getSummary (r : NewsRecord) : Option String :=
  match r.analysis with
  | none => none
  | some a => a.summary_en

/-- Truthiness of `doc.to_dict().get('analysis', \x7b\x7d).get('summary_en')` as used in
the list-comprehension filter: present and not the empty string. -/
def summaryTruthy (r : NewsRecord) : Bool :=
  match getSummary r with
  | none => false
  | some s => s != ""

/-- The list comprehension in `main` (lines 141-145): keep records whose
summary is truthy, and map each to `.get('analysis', \x7b\x7d).get('summary_en', '')`. -/
def news_summaries_for_context (docs : List NewsRecord) : List String :=
  (docs.filter summaryTruthy).map (fun r => (getSummary r).getD "")

/-- Python `sep.join(xs)`. -/
def joinSep (sep : String) : List String → String
  | [] => ""
  | [s] => s
  | s :: rest => s ++ sep ++ joinSep sep rest

/-- The fixed separator between summaries in the prompt. -/
def summarySep : String := "\n\n---\n\n"

/-- The `context_str` built by `generate_market_briefing`. -/
def context_str (news_summaries : List String) : String :=
  joinSep summarySep news_summaries

/-- The prompt template text before the interpolated `context_str`. -/
def promptHead : String :=
"\n        You are an expert financial market analyst AI for the \"FinanceFlow\" app. Your task is to analyze the following collection of recent news summaries and generate a structured \"Daily Market Briefing\".\n\n        CONTEXT - RECENT NEWS SUMMARIES:\n        ---\n        "

/-- The prompt template text after the interpolated `context_str`. -/
def promptTail : String :=
"\n        ---\n\n        Based *only* on the context provided, generate the briefing with the following strict JSON structure. Do not include any text, reasoning, or markdown formatting outside of the JSON object itself. The language must be professional but accessible.\n\n        \x7b\x7b\n          \"market_headline\": \"A concise, impactful headline summarizing the overall market sentiment for the day, in English. (e.g., \x27Tech Stocks Surge on Positive Inflation Data, Eyes on Fed Meeting\x27)\",\n          \"market_overview\": \"A single, easy-to-understand paragraph in English summarizing the key events and themes from all news provided. Explain the general market mood and what\x27s driving it.\",\n          \"key_drivers_and_outlook\": [\n            \"A bullet point interpreting the most significant news and its potential impact on the market or specific sectors.\",\n            \"Another bullet point highlighting a different key factor or trend visible from the news.\",\n            \"A forward-looking statement on what investors should watch out for next (e.g., upcoming reports, economic data).\"\n          ],\n          \"movers_and_shakers\": [\"A list of up to 5 most relevant stock ticker symbols (e.g., \x27AAPL\x27, \x27PTT\x27) that are central to today\x27s news context.\"]\n        \x7d\x7d\n        "

/-- The full prompt string sent to the completion API for a given summary list. -/
def mkPrompt (news_summaries : List String) : String :=
  promptHead ++ context_str news_summaries ++ promptTail

/-- Result of one call to `generate_market_briefing`, with the effect trace
the claims talk about: whether the external completion API was invoked, which
prompt was sent, and which log lines were emitted. -/
structure GenResult where
  result : Doc
  apiCalled : Bool := false
  promptSent : Option String := none
  warnedEmpty : Bool := false
  errorLogged : Bool := false
deriving DecidableEq, Repr

/-- The outcome the Groq completion call plus `json.loads` parse would
produce: `.ok d` is a successfully parsed JSON object, `.error ()` is any
exception raised during the call or the parse. -/
abbrev GroqOutcome := Except Unit Doc

/-- `BriefingAIProcessor.generate_market_briefing` (lines 78-124). Empty input
short-circuits to `\x7b\x7d` with a warning and no API call; otherwise the prompt is
built and the API invoked, any exception being caught and converted to `\x7b\x7d`. -/
def generate_market_briefing (groq : GroqOutcome) (news_summaries : List String) :
    GenResult :=
  if news_summaries.isEmpty then
    { result := [], warnedEmpty := true }
  else
    match groq with
    | .ok d =>
      { result := d, apiCalled := true, promptSent := some (mkPrompt news_summaries) }
    | .error _ =>
      { result := [], apiCalled := true, promptSent := some (mkPrompt news_summaries),
        errorLogged := true }

/-- Oracles for the external world during one run of `main`. -/
structure Env where
  existsToday : Bool
  queryResult : Except Unit (List NewsRecord)
  groq : GroqOutcome
  writeResult : Except Unit Unit
deriving Repr

/-- Trace of one run of `main`: counts of external calls, the successfully
written document if any, log lines, and the process exit status. -/
structure RunTrace where
  queryCalls : Nat := 0
  genCalls : Nat := 0
  writeAttempts : Nat := 0
  written : Option Doc := none
  skippedExisting : Bool := false
  queryErrorLogged : Bool := false
  noNewsWarned : Bool := false
  invalidDataLogged : Bool := false
  writeErrorLogged : Bool := false
  exitCode : Nat := 0
deriving DecidableEq, Repr

/-- The validation test on line 160: `briefing_data and 'market_headline' in
briefing_data`. -/
def validBriefing (d : Doc) : Bool :=
  !d.isEmpty && hasKey d "market_headline"

/-- The annotation on lines 162-163: inject the server timestamp and the
source count into the accepted briefing. -/
def annotate (d : Doc) (sourceCount : Nat) : Doc :=
  setKey (setKey d "generated_at_utc" Val.timestamp) "source_news_count"
    (Val.nat sourceCount)

/-- The orchestrator `main` (lines 126-172), with the external world supplied
by `env`. Every branch of the Python function returns normally, so every
branch here produces a trace with `exitCode = 0`. -/
def main (env : Env) : RunTrace :=
  if env.existsToday then
    { skippedExisting := true }
  else
    match env.queryResult with
    | .error _ => { queryCalls := 1, queryErrorLogged := true }
    | .ok docs =>
      let summaries := news_summaries_for_context docs
      if summaries.isEmpty then
        { queryCalls := 1, noNewsWarned := true }
      else
        let gen := generate_market_briefing env.groq summaries
        if validBriefing gen.result then
          let toWrite := annotate gen.result summaries.length
          match env.writeResult with
          | .ok _ =>
            { queryCalls := 1, genCalls := 1, writeAttempts := 1,
              written := some toWrite }
          | .error _ =>
            { queryCalls := 1, genCalls := 1, writeAttempts := 1,
              writeErrorLogged := true }
        else
          { queryCalls := 1, genCalls := 1, invalidDataLogged := true }

/-- Truthiness of an environment-variable value: `os.getenv` returned `None`
or the empty string. -/
def falsyEnv : Option String → Bool
  | none => true
  | some s => s == ""

/-- Trace of the module-level startup block (lines 25-66): the exit code when
the process terminated there, and how many document-store operations
(`firestore.client()` / collection handles) were attempted. -/
structure StartupTrace where
  exitCode : Option Nat
  storeOps : Nat
deriving DecidableEq, Repr

/-- Module-level initialization (lines 25-66). `credEnv` and `keyEnv` are the
two environment variables; `parseCred` is the outcome `json.loads` would
produce on the credential payload; `initApp` is the outcome of building the
certificate and initializing the Firebase app. Store handles are only
created after every check passes. -/
def startupCheck (credEnv keyEnv : Option String)
    (parseCred : String → Except Unit Unit) (initApp : Except Unit Unit) :
    StartupTrace :=
  if falsyEnv credEnv then { exitCode := some 1, storeOps := 0 }
  else if falsyEnv keyEnv then { exitCode := some 1, storeOps := 0 }
  else
    match parseCred (credEnv.getD "") with
    | .error _ => { exitCode := some 1, storeOps := 0 }
    | .ok _ =>
      match initApp with
      | .error _ => { exitCode := some 1, storeOps := 0 }
      | .ok _ => { exitCode := none, storeOps := 1 }

/-- The four content fields of the documented briefing schema. -/
def briefingFields : List String :=
  ["market_headline", "market_overview", "key_drivers_and_outlook",
   "movers_and_shakers"]

/-- Substring containment: `needle` occurs contiguously in `hay`. -/
def containsSub (needle hay : String) : Prop :=
  ∃ p q, hay = p ++ needle ++ q

/-- Spec-side characterization of the summary extraction: a record yields its
summary exactly when the `analysis` field is present, the `summary_en` field
is present, and the summary is not the empty string. -/
def summaryFn (r : NewsRecord) : Option String :=
  match getSummary r with
  | none => none
  | some s => if s = "" then none else some s

/-- Sample analyzed-news record with a usable summary. -/
def recGood : NewsRecord := ⟨some ⟨some "Fed cuts rates"⟩⟩

/-- Sample record with no `analysis` field. -/
def recNoAnalysis : NewsRecord := ⟨none⟩

/-- Sample record whose `analysis` lacks `summary_en`. -/
def recNoSummary : NewsRecord := ⟨some ⟨none⟩⟩

/-- Sample record whose `summary_en` is the empty string. -/
def recEmptySummary : NewsRecord := ⟨some ⟨some ""⟩⟩

/-- Sample well-formed LLM response matching the documented schema. -/
def goodBriefing : Doc :=
  [("market_headline", Val.str "H"), ("market_overview", Val.str "O"),
   ("key_drivers_and_outlook", Val.strList ["a", "b", "c"]),
   ("movers_and_shakers", Val.strList ["AAPL"])]

/-! ## Helper lemmas -/

theorem containsSub_of_append (needle pre post h : String)
    (hsub : containsSub needle h) : containsSub needle (pre ++ h ++ post) := by
  obtain ⟨p, q, rfl⟩ := hsub
  exact ⟨pre ++ p, q ++ post, by simp [String.append_assoc]⟩

theorem mem_joinSep (sep s : String) (l : List String) (hs : s ∈ l) :
    containsSub s (joinSep sep l) := by
  induction l with
  | nil => cases hs
  | cons a t ih =>
    cases t with
    | nil =>
      rcases List.mem_singleton.mp hs with rfl
      exact ⟨"", "", by simp [joinSep, String.empty_append, String.append_empty]⟩
    | cons b t2 =>
      rcases List.mem_cons.mp hs with rfl | hmem
      · exact ⟨"", sep ++ joinSep sep (b :: t2),
          by simp [joinSep, String.empty_append, String.append_assoc]⟩
      · obtain ⟨p, q, hq⟩ := ih hmem
        exact ⟨a ++ sep ++ p, q, by simp [joinSep, hq, String.append_assoc]⟩

theorem hasKey_setKey_of_hasKey (d : Doc) (k k' : String) (v : Val)
    (h : hasKey d k' = true) : hasKey (setKey d k v) k' = true := by
  simp only [hasKey, List.any_eq_true] at h
  obtain ⟨p, hp, hpk⟩ := h
  rw [setKey]
  by_cases hk : hasKey d k = true
  · rw [if_pos hk]
    simp only [hasKey, List.any_eq_true]
    refine ⟨if p.1 == k then (k, v) else p, List.mem_map.mpr ⟨p, hp, rfl⟩, ?_⟩
    by_cases hpk2 : p.1 == k
    · rw [if_pos hpk2]
      have h1 : p.1 = k := by simpa using hpk2
      have h2 : p.1 = k' := by simpa using hpk
      simp [← h1, h2]
    · rw [if_neg hpk2]
      exact hpk
  · rw [if_neg hk]
    simp only [hasKey, List.any_eq_true]
    exact ⟨p, List.mem_append_left _ hp, hpk⟩

theorem news_summaries_eq_filterMap (docs : List NewsRecord) :
    news_summaries_for_context docs = docs.filterMap summaryFn := by
  induction docs with
  | nil => rfl
  | cons r t ih =>
    rcases r with ⟨_ | ⟨_ | s⟩⟩
    · simpa [news_summaries_for_context, summaryTruthy, getSummary, summaryFn,
        List.filterMap_cons] using ih
    · simpa [news_summaries_for_context, summaryTruthy, getSummary, summaryFn,
        List.filterMap_cons] using ih
    · by_cases hs : s = ""
      · subst hs
        simpa [news_summaries_for_context, summaryTruthy, getSummary, summaryFn,
          List.filterMap_cons] using ih
      · simpa [news_summaries_for_context, summaryTruthy, getSummary, summaryFn,
          List.filterMap_cons, hs] using ih

/-! ## Claim theorems -/

/-- C1: when a briefing document already exists at the computed date id, the
orchestrator performs no news query, no generation call and no write, and
terminates successfully (exit status 0). -/
theorem idempotency_guard_no_op (env : Env) (h : env.existsToday = true) :
    (main env).queryCalls = 0 ∧ (main env).genCalls = 0 ∧
    (main env).writeAttempts = 0 ∧ (main env).exitCode = 0 := by
  simp [main, h]

theorem idempotency_guard_no_op_witness :
    (main { existsToday := true, queryResult := Except.ok [], groq := Except.ok [],
            writeResult := Except.ok () }).queryCalls = 0 ∧
    (main { existsToday := true, queryResult := Except.ok [], groq := Except.ok [],
            writeResult := Except.ok () }).genCalls = 0 ∧
    (main { existsToday := true, queryResult := Except.ok [], groq := Except.ok [],
            writeResult := Except.ok () }).writeAttempts = 0 ∧
    (main { existsToday := true, queryResult := Except.ok [], groq := Except.ok [],
            writeResult := Except.ok () }).exitCode = 0 :=
  idempotency_guard_no_op _ rfl

/-- C3 counterexample: with a completion response `\x7b"market_overview": "x"\x7d`
and a single non-empty summary, the generator returns a non-empty mapping
that does not contain even the four schema fields (so a fortiori not five):
the generator performs no validation of the parsed response. -/
theorem generator_postcondition_cex :
    ¬((generate_market_briefing (Except.ok [("market_overview", Val.str "x")])
        ["s"]).result = [] ∨
      briefingFields.all (fun k =>
        hasKey (generate_market_briefing (Except.ok [("market_overview", Val.str "x")])
          ["s"]).result k) = true) := by
  decide

/-- C3 amended: for every input, the result of `generate_market_briefing` is
either the empty mapping or exactly the mapping parsed from the completion
response; no presence of any documented field is guaranteed. -/
theorem generator_result_empty_or_parsed (groq : GroqOutcome) (l : List String) :
    (generate_market_briefing groq l).result = [] ∨
    groq = Except.ok (generate_market_briefing groq l).result := by
  cases l with
  | nil => exact Or.inl rfl
  | cons a t =>
    cases groq with
    | ok d => exact Or.inr (by simp [generate_market_briefing])
    | error e => exact Or.inl (by simp [generate_market_briefing])

/-- C4: on an empty summary list, `generate_market_briefing` returns the empty
mapping immediately, logs a warning, and never invokes the completion API. -/
theorem empty_input_short_circuit (groq : GroqOutcome) :
    (generate_market_briefing groq []).result = [] ∧
    (generate_market_briefing groq []).apiCalled = false ∧
    (generate_market_briefing groq []).warnedEmpty = true := by
  exact ⟨rfl, rfl, rfl⟩

/-- C5: any exception raised during the completion call or the JSON parse
(modelled as the oracle outcome `.error ()`) is caught and logged and the
generator returns the empty mapping; the Lean function is total, matching the
fact that the Python function never propagates an exception. -/
theorem generator_exception_containment (l : List String) (h : l ≠ []) :
    (generate_market_briefing (Except.error ()) l).result = [] ∧
    (generate_market_briefing (Except.error ()) l).apiCalled = true ∧
    (generate_market_briefing (Except.error ()) l).errorLogged = true := by
  cases l with
  | nil => exact absurd rfl h
  | cons a t => exact ⟨rfl, rfl, rfl⟩

theorem generator_exception_containment_witness :
    (generate_market_briefing (Except.error ()) ["s"]).result = [] ∧
    (generate_market_briefing (Except.error ()) ["s"]).apiCalled = true ∧
    (generate_market_briefing (Except.error ()) ["s"]).errorLogged = true :=
  generator_exception_containment ["s"] (by decide)

/-- C7: for every non-empty summary list, the generator sends exactly the
prompt built from the fixed template around the summaries joined by the fixed
separator, and that prompt contains every input summary string. -/
theorem prompt_contains_summaries (groq : GroqOutcome) (l : List String)
    (h : l ≠ []) :
    (generate_market_briefing groq l).promptSent = some (mkPrompt l) ∧
    mkPrompt l = promptHead ++ context_str l ++ promptTail ∧
    context_str l = joinSep summarySep l ∧
    ∀ s ∈ l, containsSub s (mkPrompt l) := by
  refine ⟨?_, rfl, rfl, ?_⟩
  · cases l with
    | nil => exact absurd rfl h
    | cons a t => cases groq <;> simp [generate_market_briefing]
  · intro s hs
    exact containsSub_of_append s promptHead promptTail _
      (mem_joinSep summarySep s l hs)

theorem prompt_contains_summaries_witness :
    containsSub "abc" (mkPrompt ["abc"]) :=
  (prompt_contains_summaries (Except.ok []) ["abc"] (by decide)).2.2.2 "abc"
    (by decide)

/-- C10: every summary handed to the generator is a non-empty string, and the
extraction is exactly the filter that drops records with a missing `analysis`
field, a missing `summary_en` field, or an empty-string `summary_en`. -/
theorem summary_filter_invariant (docs : List NewsRecord) :
    (∀ s ∈ news_summaries_for_context docs, s ≠ "") ∧
    news_summaries_for_context docs = docs.filterMap summaryFn := by
  refine ⟨?_, news_summaries_eq_filterMap docs⟩
  intro s hs
  rw [news_summaries_eq_filterMap] at hs
  obtain ⟨r, _, hf⟩ := List.mem_filterMap.mp hs
  unfold summaryFn at hf
  rcases hg : getSummary r with _ | s'
  · rw [hg] at hf
    cases hf
  · rw [hg] at hf
    by_cases hs' : s' = ""
    · simp [hs'] at hf
    · simp [hs'] at hf
      subst hf
      exact hs'

theorem summary_filter_invariant_witness :
    ("Fed cuts rates" : String) ≠ "" :=
  (summary_filter_invariant
    [recGood, recNoAnalysis, recNoSummary, recEmptySummary]).1
    "Fed cuts rates" (by decide)

/-- C2: in a run that reaches the generation stage, the orchestrator attempts
the write if and only if the generated result is non-empty and contains the
key `market_headline`; when the result fails that test, no write occurs and
the invalid-data error is logged. -/
theorem write_gating (env : Env) (docs : List NewsRecord)
    (hex : env.existsToday = false) (hq : env.queryResult = Except.ok docs)
    (hne : (news_summaries_for_context docs).isEmpty = false) :
    ((main env).writeAttempts = 1 ↔
      validBriefing (generate_market_briefing env.groq
        (news_summaries_for_context docs)).result = true) ∧
    (validBriefing (generate_market_briefing env.groq
        (news_summaries_for_context docs)).result = false →
      (main env).writeAttempts = 0 ∧ (main env).invalidDataLogged = true) := by
  cases hv : validBriefing (generate_market_briefing env.groq
      (news_summaries_for_context docs)).result
  · simp [main, hex, hq, hne, hv]
  · cases hw : env.writeResult <;> simp [main, hex, hq, hne, hv, hw]

theorem write_gating_witness :
    (main { existsToday := false, queryResult := Except.ok [recGood],
            groq := Except.ok [("market_headline", Val.str "H")],
            writeResult := Except.ok () }).writeAttempts = 1 :=
  ((write_gating _ [recGood] rfl rfl (by decide)).1).mpr (by decide)

/-- C6: when an accepted result is written, the stored document is exactly the
generated result with `generated_at_utc` set to the server timestamp and
`source_news_count` set to the number of extracted summaries, and every key
of the generated result is still present in the stored document. -/
theorem persisted_document_shape (env : Env) (docs : List NewsRecord)
    (hex : env.existsToday = false) (hq : env.queryResult = Except.ok docs)
    (hne : (news_summaries_for_context docs).isEmpty = false)
    (hv : validBriefing (generate_market_briefing env.groq
      (news_summaries_for_context docs)).result = true)
    (hw : env.writeResult = Except.ok ()) :
    (main env).written =
      some (annotate (generate_market_briefing env.groq
        (news_summaries_for_context docs)).result
        (news_summaries_for_context docs).length) ∧
    (∀ k, hasKey (generate_market_briefing env.groq
        (news_summaries_for_context docs)).result k = true →
      hasKey (annotate (generate_market_briefing env.groq
        (news_summaries_for_context docs)).result
        (news_summaries_for_context docs).length) k = true) := by
  constructor
  · simp [main, hex, hq, hne, hv, hw]
  · intro k hk
    simp only [annotate]
    exact hasKey_setKey_of_hasKey _ _ _ _ (hasKey_setKey_of_hasKey _ _ _ _ hk)

theorem persisted_document_shape_witness :
    (main { existsToday := false,
            queryResult := Except.ok [recGood, ⟨some ⟨some "B"⟩⟩, ⟨some ⟨some "C"⟩⟩],
            groq := Except.ok goodBriefing,
            writeResult := Except.ok () }).written =
      some (annotate (generate_market_briefing (Except.ok goodBriefing)
        (news_summaries_for_context
          [recGood, ⟨some ⟨some "B"⟩⟩, ⟨some ⟨some "C"⟩⟩])).result
        (news_summaries_for_context
          [recGood, ⟨some ⟨some "B"⟩⟩, ⟨some ⟨some "C"⟩⟩]).length) :=
  (persisted_document_shape _ [recGood, ⟨some ⟨some "B"⟩⟩, ⟨some ⟨some "C"⟩⟩]
    rfl rfl (by decide) (by decide) rfl).1

/-- C8: if the credential environment variable is absent or empty, or the API
key environment variable is absent or empty, or the credential payload fails
to parse as JSON, startup terminates with exit status 1 (non-zero) and no
document-store operation is attempted. -/
theorem fatal_startup_config (credEnv keyEnv : Option String)
    (parseCred : String → Except Unit Unit) (initApp : Except Unit Unit)
    (h : falsyEnv credEnv = true ∨ falsyEnv keyEnv = true ∨
      ∃ c, credEnv = some c ∧ parseCred c = Except.error ()) :
    (startupCheck credEnv keyEnv parseCred initApp).exitCode = some 1 ∧
    (startupCheck credEnv keyEnv parseCred initApp).exitCode ≠ some 0 ∧
    (startupCheck credEnv keyEnv parseCred initApp).storeOps = 0 := by
  rcases h with h1 | h2 | ⟨c, hc, hp⟩
  · simp [startupCheck, h1]
  · by_cases h1 : falsyEnv credEnv = true
    · simp [startupCheck, h1]
    · simp [startupCheck, h1, h2]
  · subst hc
    by_cases h1 : falsyEnv (some c) = true
    · simp [startupCheck, h1]
    · by_cases h2 : falsyEnv keyEnv = true
      · simp [startupCheck, h1, h2]
      · simp [startupCheck, h1, h2, hp]

theorem fatal_startup_config_witness :
    (startupCheck none (some "key") (fun _ => Except.ok ())
      (Except.ok ())).exitCode = some 1 ∧
    (startupCheck none (some "key") (fun _ => Except.ok ())
      (Except.ok ())).exitCode ≠ some 0 ∧
    (startupCheck none (some "key") (fun _ => Except.ok ())
      (Except.ok ())).storeOps = 0 :=
  fatal_startup_config none (some "key") (fun _ => Except.ok ())
    (Except.ok ()) (Or.inl rfl)

/-- C9: an exception during the news query is caught and logged and the run
ends with no generation call, no write and exit status 0; an exception during
the write is caught and logged, nothing is recorded as written, and the
process still exits with status 0. -/
theorem store_failure_containment (envQ envW : Env) (docs : List NewsRecord)
    (hexQ : envQ.existsToday = false)
    (hqQ : envQ.queryResult = Except.error ())
    (hexW : envW.existsToday = false)
    (hqW : envW.queryResult = Except.ok docs)
    (hne : (news_summaries_for_context docs).isEmpty = false)
    (hv : validBriefing (generate_market_briefing envW.groq
      (news_summaries_for_context docs)).result = true)
    (hw : envW.writeResult = Except.error ()) :
    ((main envQ).genCalls = 0 ∧ (main envQ).writeAttempts = 0 ∧
     (main envQ).queryErrorLogged = true ∧ (main envQ).exitCode = 0) ∧
    ((main envW).writeErrorLogged = true ∧ (main envW).written = none ∧
     (main envW).exitCode = 0) := by
  constructor
  · simp [main, hexQ, hqQ]
  · simp [main, hexW, hqW, hne, hv, hw]

theorem store_failure_containment_witness :
    ((main { existsToday := false, queryResult := Except.error (),
             groq := Except.ok [], writeResult := Except.ok () }).genCalls = 0 ∧
     (main { existsToday := false, queryResult := Except.error (),
             groq := Except.ok [], writeResult := Except.ok () }).writeAttempts = 0 ∧
     (main { existsToday := false, queryResult := Except.error (),
             groq := Except.ok [], writeResult := Except.ok () }).queryErrorLogged = true ∧
     (main { existsToday := false, queryResult := Except.error (),
             groq := Except.ok [], writeResult := Except.ok () }).exitCode = 0) ∧
    ((main { existsToday := false, queryResult := Except.ok [recGood],
             groq := Except.ok goodBriefing,
             writeResult := Except.error () }).writeErrorLogged = true ∧
     (main { existsToday := false, queryResult := Except.ok [recGood],
             groq := Except.ok goodBriefing,
             writeResult := Except.error () }).written = none ∧
     (main { existsToday := false, queryResult := Except.ok [recGood],
             groq := Except.ok goodBriefing,
             writeResult := Except.error () }).exitCode = 0) :=
  store_failure_containment _ _ [recGood] rfl rfl rfl rfl (by decide)
    (by decide) rfl

end DailyBrief
